import Mathlib

/-!
Verification development for the smartsheet-bot repository
(`scripts/discovery.py`, `scripts/monitor_and_duplicate.py`,
`scripts/updater.py`).  The Python scripts are shallowly embedded as
executable Lean functions: remote-API results are supplied through
explicit environment records, Python dicts become insertion-ordered
association lists, Python exceptions become `Except` values, and each
remote call issued by a function is recorded in an explicit trace.
-/

namespace SmartsheetBot

/-! ## Python dict as insertion-ordered association list -/

/-- Embeds Python `d.get(k)` / `d[k]`: first binding of the key, if any. -/
def dictGet {κ α : Type} [DecidableEq κ] : List (κ × α) → κ → Option α
  | [], _ => none
  | (k', v) :: rest, k => if k' = k then some v else dictGet rest k

/-- Embeds Python `d[k] = v`: overwrite in place if the key is present,
append a new binding otherwise (insertion order preserved). -/
def dictSet {κ α : Type} [DecidableEq κ] : List (κ × α) → κ → α → List (κ × α)
  | [], k, v => [(k, v)]
  | (k', v') :: rest, k, v =>
    if k' = k then (k', v) :: rest else (k', v') :: dictSet rest k v

/-- Embeds Python `d.setdefault(k, []).append(x)` on a dict of lists. -/
def dictAppend {κ α : Type} [DecidableEq κ] : List (κ × List α) → κ → α → List (κ × List α)
  | [], k, x => [(k, [x])]
  | (k', xs) :: rest, k, x =>
    if k' = k then (k', xs ++ [x]) :: rest else (k', xs) :: dictAppend rest k x

theorem dictGet_dictSet_self {κ α : Type} [DecidableEq κ]
    (d : List (κ × α)) (k : κ) (v : α) : dictGet (dictSet d k v) k = some v := by
  induction d with
  | nil => simp [dictSet, dictGet]
  | cons p rest ih =>
    obtain ⟨k', v'⟩ := p
    by_cases h : k' = k
    · simp [dictSet, dictGet, h]
    · simp [dictSet, dictGet, h, ih]

theorem dictGet_dictSet_ne {κ α : Type} [DecidableEq κ]
    (d : List (κ × α)) (k k' : κ) (v : α) (h : k ≠ k') :
    dictGet (dictSet d k v) k' = dictGet d k' := by
  induction d with
  | nil => simp [dictSet, dictGet, h]
  | cons p rest ih =>
    obtain ⟨k₀, v₀⟩ := p
    by_cases h₀ : k₀ = k
    · subst h₀
      simp [dictSet, dictGet, h]
    · simp [dictSet, dictGet, h₀, ih]

theorem dictGet_dictSet_isSome {κ α : Type} [DecidableEq κ]
    (d : List (κ × α)) (k k' : κ) (v : α)
    (h : (dictGet (dictSet d k v) k').isSome) :
    k' = k ∨ (dictGet d k').isSome := by
  by_cases hk : k' = k
  · exact Or.inl hk
  · right
    rwa [dictGet_dictSet_ne d k k' v (fun he => hk he.symm)] at h

theorem mem_dictSet {κ α : Type} [DecidableEq κ]
    (d : List (κ × α)) (k : κ) (v : α) :
    ∀ q ∈ dictSet d k v, q.1 = k ∨ q ∈ d := by
  induction d with
  | nil =>
    intro q hq
    simp only [dictSet, List.mem_singleton] at hq
    subst hq; exact Or.inl rfl
  | cons r rs ihr =>
    obtain ⟨kr, vr⟩ := r
    intro q hq
    by_cases hr : kr = k
    · simp only [dictSet, if_pos hr, List.mem_cons] at hq
      rcases hq with hq | hq
      · subst hq; exact Or.inl hr
      · exact Or.inr (List.mem_cons_of_mem _ hq)
    · simp only [dictSet, if_neg hr, List.mem_cons] at hq
      rcases hq with hq | hq
      · subst hq; exact Or.inr (List.mem_cons_self _ _)
      · rcases ihr q hq with h | h
        · exact Or.inl h
        · exact Or.inr (List.mem_cons_of_mem _ h)

theorem dictSet_keys_nodup {κ α : Type} [DecidableEq κ]
    (d : List (κ × α)) (k : κ) (v : α) (h : (d.map Prod.fst).Nodup) :
    ((dictSet d k v).map Prod.fst).Nodup := by
  induction d with
  | nil => simp [dictSet]
  | cons p rest ih =>
    obtain ⟨k₀, v₀⟩ := p
    by_cases h₀ : k₀ = k
    · simpa [dictSet, h₀] using h
    · simp only [List.map_cons, List.nodup_cons] at h
      have hmem : k₀ ∉ (dictSet rest k v).map Prod.fst := by
        intro hm
        rcases List.mem_map.mp hm with ⟨q, hq, hfst⟩
        rcases mem_dictSet rest k v q hq with hc | hc
        · exact h₀ (hfst ▸ hc)
        · exact h.1 (hfst ▸ List.mem_map_of_mem Prod.fst hc)
      simp only [dictSet, if_neg h₀, List.map_cons, List.nodup_cons]
      exact ⟨hmem, ih h.2⟩

/-! ## Embedding of `scripts/discovery.py` -/

/-- Whitespace characters stripped by Python `str.strip()` (ASCII range). -/
def isPySpace (c : Char) : Bool :=
  c = ' ' ∨ c = '\t' ∨ c = '\n' ∨ c = '\x0d' ∨ c = '\x0b' ∨ c = '\x0c'

/-- Embeds Python `str.strip()`. -/
def pyStrip (s : String) : String :=
  String.mk ((((s.data.dropWhile isPySpace).reverse).dropWhile isPySpace).reverse)

/-- True when the lower-cased first `pat.length` characters of `l` equal `pat`. -/
def lowerPrefixMatches (l : List Char) (pat : List Char) : Bool :=
  ((l.take pat.length).map Char.toLower) = pat

/-- Cuts `l` at the leftmost case-insensitive occurrence of the pattern
`" - copy"`, dropping the occurrence and everything after it
(the `.*$` part of the regex). -/
def cutCopy : List Char → List Char
  | [] => []
  | c :: rest =>
    if lowerPrefixMatches (c :: rest) ((" - copy").data) then []
    else c :: cutCopy rest

/-- Embeds `normalise` of discovery.py:
`re.sub(r' - Copy.*$', '', name, flags=re.I).strip()`. -/
def normalise (name : String) : String :=
  pyStrip (String.mk (cutCopy name.data))

/-- Embeds Python substring containment `pat in s` (on character lists). -/
def pyContains : List Char → List Char → Bool
  | [], pat => pat.isEmpty
  | a :: rest, pat => pat.isPrefixOf (a :: rest) || pyContains rest pat

/-- Embeds Python `sub in s` on strings. -/
def pyStrContains (s : String) (pat : String) : Bool :=
  pyContains s.data pat.data

/-- Embeds Python `str.lower()` (ASCII case folding). -/
def pyLower (s : String) : String :=
  String.mk (s.data.map Char.toLower)

/-- One sheet as observed by the discovery scan: its id, display name,
`modifiedAt` timestamp (ISO string), and the outcome of reading the
`OriginalSheetId` summary field (`none` both when the read raises and when
the field is absent — the code treats the two identically via
`try/except` + `dict.get`). -/
structure Sheet where
  id : Int
  name : String
  modified_at : String
  summaryOriginalSheetId : Option String
  deriving DecidableEq, Repr

/-- Group-key resolution of build_index: the summary field `OriginalSheetId`
wins when it is truthy (`if not src_id` in the code rejects `none` and the
empty string); otherwise the sheet's own id when the lower-cased name
contains `template`; otherwise the normalised name. -/
def resolveKey (s : Sheet) : String :=
  let fallback :=
    if pyStrContains (pyLower s.name) ("template") then toString s.id
    else normalise s.name
  match s.summaryOriginalSheetId with
  | some v => if v = "" then fallback else v
  | none => fallback

/-- The mapping produced by build_index: group key to list of instance ids,
in insertion order (this is exactly what `json.dumps` serialises). -/
abbrev PyMapping : Type := List (String × List Int)

/-- Change cache / `last_seen.json`: sheet id (string) to `modifiedAt`. -/
abbrev PyCache : Type := List (String × String)

/-- Body of the `for s in all_sheets` loop of `build_index`: unconditionally
record `modifiedAt` in the new cache; skip group assignment when the cached
value equals the live one; otherwise resolve the group key and append the
sheet id to that group. -/
def buildStep (since_cache : PyCache) (acc : PyMapping × PyCache) (s : Sheet) :
    PyMapping × PyCache :=
  let mod := s.modified_at
  let last_seen := dictSet acc.2 (toString s.id) mod
  if dictGet since_cache (toString s.id) = some mod then (acc.1, last_seen)
  else (dictAppend acc.1 (resolveKey s) s.id, last_seen)

/-- Embeds `build_index(workspace_id, since_cache)` of discovery.py, with the
recursively enumerated sheet list supplied as input.  Returns
`(mapping, last_seen)`, both starting from fresh empty dicts. -/
def build_index (all_sheets : List Sheet) (since_cache : PyCache) :
    PyMapping × PyCache :=
  all_sheets.foldl (buildStep since_cache) ([], [])

/-- The `last_seen` accumulation of the loop, in isolation: it is updated
unconditionally for every sheet, independently of the mapping. -/
def cacheFold (sheets : List Sheet) (ls : PyCache) : PyCache :=
  sheets.foldl (fun a s => dictSet a (toString s.id) s.modified_at) ls

theorem build_index_snd (cache : PyCache) (sheets : List Sheet) :
    ∀ (m : PyMapping) (ls : PyCache),
      (sheets.foldl (buildStep cache) (m, ls)).2 = cacheFold sheets ls := by
  induction sheets with
  | nil => intro m ls; rfl
  | cons s rest ih =>
    intro m ls
    have h2 : buildStep cache (m, ls) s =
        ((buildStep cache (m, ls) s).1, dictSet ls (toString s.id) s.modified_at) := by
      unfold buildStep
      dsimp only
      split <;> rfl
    simp only [List.foldl_cons, cacheFold]
    rw [h2]
    exact ih _ _

theorem cacheFold_cons (s : Sheet) (rest : List Sheet) (ls : PyCache) :
    cacheFold (s :: rest) ls = cacheFold rest (dictSet ls (toString s.id) s.modified_at) :=
  rfl

theorem cacheFold_lookup_not_mem (sheets : List Sheet) :
    ∀ (ls : PyCache) (k : String),
      k ∉ sheets.map (fun s => toString s.id) →
      dictGet (cacheFold sheets ls) k = dictGet ls k := by
  induction sheets with
  | nil => intro ls k _; rfl
  | cons s rest ih =>
    intro ls k hk
    simp only [List.map_cons, List.mem_cons, not_or] at hk
    rw [cacheFold_cons, ih _ _ (by simpa using hk.2)]
    exact dictGet_dictSet_ne ls (toString s.id) k s.modified_at (fun h => hk.1 h.symm)

theorem cacheFold_lookup_mem (sheets : List Sheet)
    (hnd : (sheets.map (fun s => toString s.id)).Nodup) :
    ∀ (ls : PyCache), ∀ s ∈ sheets,
      dictGet (cacheFold sheets ls) (toString s.id) = some s.modified_at := by
  induction sheets with
  | nil => intro ls s hs; cases hs
  | cons s₀ rest ih =>
    intro ls s hs
    simp only [List.map_cons, List.nodup_cons] at hnd
    rcases List.mem_cons.mp hs with h | h
    · subst h
      rw [cacheFold_cons, cacheFold_lookup_not_mem rest _ _ hnd.1]
      exact dictGet_dictSet_self ls (toString s.id) s.modified_at
    · rw [cacheFold_cons]
      exact ih hnd.2 _ s h

theorem cacheFold_lookup_isSome (sheets : List Sheet) :
    ∀ (ls : PyCache) (k : String),
      (dictGet (cacheFold sheets ls) k).isSome →
      (∃ s ∈ sheets, toString s.id = k) ∨ (dictGet ls k).isSome := by
  induction sheets with
  | nil => intro ls k h; exact Or.inr h
  | cons s₀ rest ih =>
    intro ls k h
    rw [cacheFold_cons] at h
    rcases ih _ _ h with ⟨s, hs, hk⟩ | h'
    · exact Or.inl ⟨s, List.mem_cons_of_mem _ hs, hk⟩
    · rcases dictGet_dictSet_isSome ls (toString s₀.id) k s₀.modified_at h' with h'' | h''
      · exact Or.inl ⟨s₀, List.mem_cons_self _ _, h''.symm⟩
      · exact Or.inr h''

theorem cacheFold_keys_nodup (sheets : List Sheet) :
    ∀ (ls : PyCache), ((ls.map Prod.fst).Nodup) →
      (((cacheFold sheets ls).map Prod.fst).Nodup) := by
  induction sheets with
  | nil => intro ls h; exact h
  | cons s rest ih =>
    intro ls h
    rw [cacheFold_cons]
    exact ih _ (dictSet_keys_nodup ls (toString s.id) s.modified_at h)

/-- C9: the change cache returned by `build_index` has exactly one entry per
sheet discovered in the run, keyed by the sheet's id with its current
`modifiedAt` as value, and entries of the previous cache for sheets not
discovered in this run do not appear in the new cache. -/
theorem build_index_cache_fresh (sheets : List Sheet) (cache : PyCache)
    (hnd : (sheets.map (fun s => toString s.id)).Nodup) :
    (∀ s ∈ sheets,
        dictGet (build_index sheets cache).2 (toString s.id) = some s.modified_at) ∧
    (∀ k, (dictGet (build_index sheets cache).2 k).isSome →
        ∃ s ∈ sheets, toString s.id = k) ∧
    (((build_index sheets cache).2.map Prod.fst).Nodup) := by
  have hsnd : (build_index sheets cache).2 = cacheFold sheets [] :=
    build_index_snd cache sheets [] []
  refine ⟨?_, ?_, ?_⟩
  · intro s hs
    rw [hsnd]
    exact cacheFold_lookup_mem sheets hnd [] s hs
  · intro k hk
    rw [hsnd] at hk
    rcases cacheFold_lookup_isSome sheets [] k hk with h | h
    · exact h
    · simp [dictGet] at h
  · rw [hsnd]
    exact cacheFold_keys_nodup sheets [] (by simp)

/-- Concrete two-sheet workspace used to witness `build_index_cache_fresh`. -/
def sheetsW : List Sheet :=
  [⟨1001, "Budget Template", "2024-01-01T00:00:00Z", none⟩,
   ⟨1002, "Budget Template - Copy (1)", "2024-02-01T00:00:00Z", none⟩]

/-- Witness for C9 at a concrete two-sheet workspace with a stale cache
entry for a no-longer-present sheet. -/
theorem build_index_cache_fresh_witness :
    dictGet (build_index sheetsW [("999", "old")]).2
        (toString (sheetsW.get ⟨0, by decide⟩).id) =
      some (sheetsW.get ⟨0, by decide⟩).modified_at :=
  (build_index_cache_fresh sheetsW [("999", "old")] (by decide)).1
    (sheetsW.get ⟨0, by decide⟩) (by decide)

/-- Sheet of the single-sheet workspace exhibiting the C1 divergence. -/
def sheetC1 : Sheet := ⟨1001, "Budget Template", "2024-01-01T00:00:00Z", none⟩

/-- C1: the code violates discovery idempotence.  Over an unchanged
one-sheet workspace, the first run (from an empty cache) produces mapping
`{"1001": [1001]}`; the second run, started from the cache the first run
produced, skips the unchanged sheet and therefore writes an EMPTY mapping,
not a byte-identical one (`mapping` starts as a fresh `{}` each run and the
`continue` branch never records skipped sheets).  The caches do agree. -/
theorem build_index_second_run_empties_mapping :
    build_index [sheetC1] [] =
      ([("1001", [(1001 : Int)])], [("1001", "2024-01-01T00:00:00Z")]) ∧
    build_index [sheetC1] [("1001", "2024-01-01T00:00:00Z")] =
      ([], [("1001", "2024-01-01T00:00:00Z")]) := by
  constructor <;> rfl

/-! ## Embedding of `scripts/monitor_and_duplicate.py` -/

/-- Remote calls issued by `duplicate_blank`, in issue order. -/
inductive DupCall
  | copySheet
  | tagSummary
  | getSheet
  | deleteRows
  deriving DecidableEq, Repr

/-- Outcomes of the remote calls `duplicate_blank` may issue.  `copyResult`
is the id extracted from the copy response; `getRowsResult` is the row-id
list of the freshly copied sheet. -/
structure DupEnv where
  copyResult : Except String Int
  tagResult : Except String Unit
  getRowsResult : Except String (List Int)
  deleteResult : Except String Unit

/-- Embeds `duplicate_blank(src_id)`: copy the sheet (a failure here is
logged and returns `None`), then tag the summary field (failure logged,
execution continues), then fetch and delete the rows (failure logged,
execution continues), finally print the success line and return the new id.
Result: (returned value, printed diagnostics, remote calls issued). -/
def duplicate_blank (env : DupEnv) : Option Int × List String × List DupCall :=
  match env.copyResult with
  | .error e => (none, ["Error copying sheet: " ++ e], [DupCall.copySheet])
  | .ok new_id =>
    let tagLogs :=
      match env.tagResult with
      | .error e => ["Error adding OriginalSheetId tag: " ++ e]
      | .ok _ => []
    let wipe :
        List String × List DupCall :=
      match env.getRowsResult with
      | .error e => (["Error deleting rows: " ++ e], [DupCall.getSheet])
      | .ok rows =>
        if rows.isEmpty then ([], [DupCall.getSheet])
        else
          match env.deleteResult with
          | .error e => (["Error deleting rows: " ++ e], [DupCall.getSheet, DupCall.deleteRows])
          | .ok _ => ([], [DupCall.getSheet, DupCall.deleteRows])
    (some new_id,
     tagLogs ++ wipe.1 ++ ["Sheet duplicated (blank) due to errors"],
     [DupCall.copySheet, DupCall.tagSummary] ++ wipe.2)

/-- Cell as inspected by `needs_rollover` (its `display_value`). -/
structure MonCell where
  display_value : Option String
  deriving DecidableEq, Repr

/-- Row as inspected by `needs_rollover`. -/
structure MonRow where
  cells : List MonCell
  deriving DecidableEq, Repr

/-- Sheet payload fetched by `needs_rollover`. -/
structure MonSheet where
  rows : List MonRow
  total_row_count : Option Int
  columnsLen : Nat
  deriving DecidableEq, Repr

/-- Remote results consumed by `needs_rollover`: the sheet fetch and the
cross-sheet-reference listing (already reduced to the count the code
computes from `total_count` / `len(data)`). -/
structure MonEnv where
  fetchResult : Except String MonSheet
  refsCount : Except String Int

/-- Number of cells whose display value is truthy and starts with `#`
(the cell-error count of `needs_rollover`). -/
def errCellsOf (sheet : MonSheet) : Nat :=
  (sheet.rows.flatMap MonRow.cells).countP (fun c =>
    match c.display_value with
    | some s =>
      match s.data with
      | [] => false        -- empty display value: falsy, not counted
      | ch :: _ => ch = '#'
    | none => false)

/-- The `(sheet.total_row_count or len(sheet.rows)) * len(sheet.columns)`
cell-capacity product, with Python falsiness of `None`/`0`. -/
def capacityOf (sheet : MonSheet) : Int :=
  (match sheet.total_row_count with
   | some n => if n ≠ 0 then n else (sheet.rows.length : Int)
   | none => (sheet.rows.length : Int)) * (sheet.columnsLen : Int)

/-- Embeds `needs_rollover(sheet_id)`: a fetch failure yields `False`; the
cell-error, reference-saturation, and cell-capacity thresholds are checked
in that order; a failure of the reference listing alone is swallowed
(`except: pass`, count never trips) and checking continues. -/
def needs_rollover (errCellLimit errRefLimit errCellcountLimit : Int)
    (env : MonEnv) : Bool :=
  match env.fetchResult with
  | .error _ => false
  | .ok sheet =>
    if (errCellsOf sheet : Int) ≥ errCellLimit then true
    else
      let refTrip :=
        match env.refsCount with
        | .error _ => false
        | .ok n => decide (n ≥ errRefLimit)
      if refTrip then true
      else decide (capacityOf sheet ≥ errCellcountLimit)

/-- Embeds Python `max(l)` for a nonempty integer list (the `[]` case is a
junk value: Python raises there and the callers only use nonempty lists). -/
def pyMax : List Int → Int
  | [] => 0
  | a :: l => l.foldl max a

/-- Embeds Python `min(l)` for a nonempty integer list. -/
def pyMin : List Int → Int
  | [] => 0
  | a :: l => l.foldl min a

theorem foldl_max_spec (l : List Int) :
    ∀ a : Int, (l.foldl max a = a ∨ l.foldl max a ∈ l) ∧
      a ≤ l.foldl max a ∧ ∀ x ∈ l, x ≤ l.foldl max a := by
  induction l with
  | nil => intro a; exact ⟨Or.inl rfl, le_refl a, by intro x h; cases h⟩
  | cons b l ih =>
    intro a
    obtain ⟨hmem, hle, hall⟩ := ih (max a b)
    refine ⟨?_, ?_, ?_⟩
    · simp only [List.foldl_cons]
      rcases hmem with h | h
      · rcases max_choice a b with hc | hc
        · exact Or.inl (h.trans hc)
        · exact Or.inr (by rw [h, hc]; exact List.mem_cons_self _ _)
      · exact Or.inr (List.mem_cons_of_mem _ h)
    · simp only [List.foldl_cons]
      exact (le_max_left a b).trans hle
    · intro x hx
      simp only [List.foldl_cons]
      rcases List.mem_cons.mp hx with h | h
      · subst h; exact (le_max_right a x).trans hle
      · exact hall x h

theorem foldl_min_spec (l : List Int) :
    ∀ a : Int, (l.foldl min a = a ∨ l.foldl min a ∈ l) ∧
      l.foldl min a ≤ a ∧ ∀ x ∈ l, l.foldl min a ≤ x := by
  induction l with
  | nil => intro a; exact ⟨Or.inl rfl, le_refl a, by intro x h; cases h⟩
  | cons b l ih =>
    intro a
    obtain ⟨hmem, hle, hall⟩ := ih (min a b)
    refine ⟨?_, ?_, ?_⟩
    · simp only [List.foldl_cons]
      rcases hmem with h | h
      · rcases min_choice a b with hc | hc
        · exact Or.inl (h.trans hc)
        · exact Or.inr (by rw [h, hc]; exact List.mem_cons_self _ _)
      · exact Or.inr (List.mem_cons_of_mem _ h)
    · simp only [List.foldl_cons]
      exact hle.trans (min_le_left a b)
    · intro x hx
      simp only [List.foldl_cons]
      rcases List.mem_cons.mp hx with h | h
      · subst h; exact hle.trans (min_le_right a x)
      · exact hall x h

theorem pyMax_mem (l : List Int) (h : l ≠ []) : pyMax l ∈ l := by
  match l with
  | a :: rest =>
    rcases (foldl_max_spec rest a).1 with hc | hc
    · rw [pyMax, hc]; exact List.mem_cons_self _ _
    · exact List.mem_cons_of_mem _ hc

theorem pyMax_ge (l : List Int) : ∀ x ∈ l, x ≤ pyMax l := by
  match l with
  | [] => intro x hx; cases hx
  | a :: rest =>
    intro x hx
    rcases List.mem_cons.mp hx with h | h
    · subst h; exact (foldl_max_spec rest x).2.1
    · exact (foldl_max_spec rest a).2.2 x h

theorem pyMin_mem (l : List Int) (h : l ≠ []) : pyMin l ∈ l := by
  match l with
  | a :: rest =>
    rcases (foldl_min_spec rest a).1 with hc | hc
    · rw [pyMin, hc]; exact List.mem_cons_self _ _
    · exact List.mem_cons_of_mem _ hc

theorem pyMin_le (l : List Int) : ∀ x ∈ l, pyMin l ≤ x := by
  match l with
  | [] => intro x hx; cases hx
  | a :: rest =>
    intro x hx
    rcases List.mem_cons.mp hx with h | h
    · subst h; exact (foldl_min_spec rest x).2.1
    · exact (foldl_min_spec rest a).2.2 x h

/-- Digit run with Python's single-underscore-between-digits rule, after the
first digit has been consumed into `acc`. -/
def pyDigitsGo (acc : Nat) : List Char → Option Nat
  | [] => some acc
  | c :: rest =>
    if c.isDigit then pyDigitsGo (acc * 10 + (c.toNat - 48)) rest
    else if c = '_' then
      match rest with
      | d :: rest' =>
        if d.isDigit then pyDigitsGo (acc * 10 + (d.toNat - 48)) rest'
        else none
      | [] => none
    else none

/-- Nonempty decimal digit run (Python-style, underscores between digits). -/
def pyDigits : List Char → Option Nat
  | [] => none
  | c :: rest => if c.isDigit then pyDigitsGo (c.toNat - 48) rest else none

/-- Embeds Python `int(s)` on decimal strings: strip whitespace, optional
sign, nonempty digit run; `none` models the `ValueError`. -/
def pyInt (s : String) : Option Int :=
  match (((s.data.dropWhile isPySpace).reverse).dropWhile isPySpace).reverse with
  | '-' :: rest => (pyDigits rest).map (fun n => -(n : Int))
  | '+' :: rest => (pyDigits rest).map (fun n => (n : Int))
  | rest => (pyDigits rest).map (fun n => (n : Int))

/-- Origin selection of `monitor_group`: `int(template_id)` when that
parses, otherwise `min(sheets)`. -/
def origin_of (template_id : String) (sheets : List Int) : Int :=
  match pyInt template_id with
  | some n => n
  | none => pyMin sheets

/-- Embeds `monitor_group(template_id, sheets)`: evaluate
`needs_rollover(max(sheets))` and on a positive trigger duplicate the
origin.  The rollover check is abstracted as an oracle; the result records
(the sheet evaluated, the sheet duplicated if any). -/
def monitor_group (template_id : String) (sheets : List Int)
    (rollover : Int → Bool) : Int × Option Int :=
  let latest := pyMax sheets
  if rollover latest then (latest, some (origin_of template_id sheets))
  else (latest, none)

/-- Environment in which the copy succeeds (id 4242), the summary-field
tagging fails, and the row wipe succeeds. -/
def dupEnvTagFails : DupEnv :=
  { copyResult := .ok 4242
    tagResult := .error ("boom")
    getRowsResult := .ok [7, 8]
    deleteResult := .ok () }

/-- C2 counterexample: when the copy succeeds but the summary-field tagging
fails, `duplicate_blank` does NOT abort early and does NOT return a failure
indication: it still issues the wipe calls and returns the new sheet id as
success (the failure is only logged). -/
theorem duplicate_blank_tag_failure_still_succeeds :
    duplicate_blank dupEnvTagFails =
      (some 4242,
       ["Error adding OriginalSheetId tag: boom",
        "Sheet duplicated (blank) due to errors"],
       [DupCall.copySheet, DupCall.tagSummary, DupCall.getSheet, DupCall.deleteRows]) := by
  rfl

/-- C2 amended: only a failure of the copy step is logged, aborts the
sequence early and returns `None`; once the copy succeeds the function
always returns the new id (so tag/wipe failures are logged — never
silent — but do not abort the sequence and are reported as success). -/
theorem duplicate_blank_failure_semantics (env : DupEnv) :
    (∀ e, env.copyResult = .error e →
        duplicate_blank env =
          (none, ["Error copying sheet: " ++ e], [DupCall.copySheet])) ∧
    (∀ i, env.copyResult = .ok i →
        (duplicate_blank env).1 = some i ∧
        DupCall.tagSummary ∈ (duplicate_blank env).2.2 ∧
        DupCall.getSheet ∈ (duplicate_blank env).2.2) ∧
    (∀ i e, env.copyResult = .ok i → env.tagResult = .error e →
        ("Error adding OriginalSheetId tag: " ++ e) ∈ (duplicate_blank env).2.1) := by
  refine ⟨?_, ?_, ?_⟩
  · intro e he
    unfold duplicate_blank
    rw [he]
  · intro i hi
    unfold duplicate_blank
    rw [hi]
    refine ⟨rfl, by simp, ?_⟩
    rcases hg : env.getRowsResult with e | rows
    · simp
    · by_cases hr : rows.isEmpty
      · simp [hr]
      · rcases hd : env.deleteResult with e | u <;> simp [hr]
  · intro i e hi he
    unfold duplicate_blank
    rw [hi, he]
    simp

/-- Witness for `duplicate_blank_failure_semantics`: a failing copy yields
`None`, one diagnostic, and no further calls. -/
theorem duplicate_blank_failure_semantics_witness :
    duplicate_blank
        { copyResult := .error ("nope"), tagResult := .ok (),
          getRowsResult := .ok [], deleteResult := .ok () } =
      (none, ["Error copying sheet: nope"], [DupCall.copySheet]) :=
  (duplicate_blank_failure_semantics
      { copyResult := .error ("nope"), tagResult := .ok (),
        getRowsResult := .ok [], deleteResult := .ok () }).1 ("nope") rfl

/-- C7: for every non-empty group, `monitor_group` evaluates the maximum id
(a member of the group that dominates every member), and on a positive
trigger duplicates the origin: the parsed numeric group key if it parses,
otherwise the minimum id of the group; on a negative trigger it duplicates
nothing. -/
theorem monitor_group_latest_origin (tid : String) (sheets : List Int)
    (rollover : Int → Bool) (h : sheets ≠ []) :
    (monitor_group tid sheets rollover).1 ∈ sheets ∧
    (∀ x ∈ sheets, x ≤ (monitor_group tid sheets rollover).1) ∧
    (rollover (monitor_group tid sheets rollover).1 = true →
      ∃ o, (monitor_group tid sheets rollover).2 = some o ∧
        (∀ n, pyInt tid = some n → o = n) ∧
        (pyInt tid = none → o ∈ sheets ∧ ∀ x ∈ sheets, o ≤ x)) ∧
    (rollover (monitor_group tid sheets rollover).1 = false →
      (monitor_group tid sheets rollover).2 = none) := by
  have h1 : (monitor_group tid sheets rollover).1 = pyMax sheets := by
    unfold monitor_group
    dsimp only
    split <;> rfl
  refine ⟨?_, ?_, ?_, ?_⟩
  · rw [h1]; exact pyMax_mem sheets h
  · intro x hx; rw [h1]; exact pyMax_ge sheets x hx
  · intro htrig
    rw [h1] at htrig
    refine ⟨origin_of tid sheets, ?_, ?_, ?_⟩
    · unfold monitor_group
      dsimp only
      rw [htrig]
      rfl
    · intro n hn
      unfold origin_of
      rw [hn]
    · intro hn
      unfold origin_of
      rw [hn]
      exact ⟨pyMin_mem sheets h, pyMin_le sheets⟩
  · intro htrig
    rw [h1] at htrig
    unfold monitor_group
    dsimp only
    rw [htrig]
    rfl

/-- Witness for `monitor_group_latest_origin` on group key `"groupA"`
(non-numeric) with instances `[1003, 1001, 1002]` and an
always-triggering oracle: the evaluated sheet is a member dominating all
members (it is 1003) and something is duplicated. -/
theorem monitor_group_latest_origin_witness :
    (monitor_group ("groupA") [1003, 1001, 1002] (fun _ => true)).1 ∈
        ([1003, 1001, 1002] : List Int) ∧
      (monitor_group ("groupA") [1003, 1001, 1002] (fun _ => true)).2 ≠ none :=
  ⟨(monitor_group_latest_origin ("groupA") [1003, 1001, 1002] (fun _ => true)
      (by decide)).1,
   by
    obtain ⟨o, ho, -, -⟩ :=
      (monitor_group_latest_origin ("groupA") [1003, 1001, 1002] (fun _ => true)
        (by decide)).2.2.1 rfl
    rw [ho]
    exact Option.some_ne_none o⟩

/-- C10: when the sheet fetch succeeds, the cell-error count is below its
limit, and the cross-sheet-reference listing fails, `needs_rollover` is
exactly the cell-capacity comparison: the listing failure alone never
trips the saturation threshold, does not abort the check, and the capacity
check is still evaluated. -/
theorem needs_rollover_ref_listing_failure (lc lr lcap : Int)
    (env : MonEnv) (sheet : MonSheet) (e : String)
    (hf : env.fetchResult = .ok sheet)
    (hc : (errCellsOf sheet : Int) < lc)
    (hr : env.refsCount = .error e) :
    needs_rollover lc lr lcap env = decide (capacityOf sheet ≥ lcap) := by
  unfold needs_rollover
  rw [hf, hr]
  simp [not_le.mpr hc]

/-- Concrete `needs_rollover` environment: healthy cells, broken reference
listing, over-capacity sheet. -/
def monSheetW : MonSheet :=
  { rows := [⟨[⟨some ("ok")⟩, ⟨none⟩]⟩]
    total_row_count := some 100000
    columnsLen := 50 }

/-- Environment wrapping `monSheetW` with a failing reference listing. -/
def monEnvW : MonEnv :=
  { fetchResult := .ok monSheetW, refsCount := .error ("HTTP 500") }

/-- Witness for `needs_rollover_ref_listing_failure`: with limits
(1, 95, 4 800 000), no error cell, a failing listing, and a
100 000 × 50 sheet, rollover still triggers via the capacity check. -/
theorem needs_rollover_ref_listing_failure_witness :
    needs_rollover 1 95 4800000 monEnvW = true := by
  rw [needs_rollover_ref_listing_failure 1 95 4800000 monEnvW monSheetW
    ("HTTP 500") rfl (by decide) rfl]
  decide

/-! ## Embedding of `scripts/updater.py` -/

/-- Left-to-right non-overlapping replacement of the pattern `p :: ps` by
`rep` (Python `str.replace`), fuelled: the fuel starts at the subject's
length and each step consumes at least one subject character, so the
`0` clause is unreachable for the initial fuel. -/
def pyReplaceGo (p : Char) (ps rep : List Char) : Nat → List Char → List Char
  | 0, l => l
  | _ + 1, [] => []
  | fuel + 1, a :: rest =>
    if List.isPrefixOf (p :: ps) (a :: rest)
    then rep ++ pyReplaceGo p ps rep fuel (List.drop ps.length rest)
    else a :: pyReplaceGo p ps rep fuel rest

/-- Embeds Python `s.replace(pat, rep)` for a nonempty pattern (the
patterns used by the code are always bracketed tokens, never empty). -/
def pyReplace (s pat rep : List Char) : List Char :=
  match pat with
  | [] => s
  | p :: ps => pyReplaceGo p ps rep s.length s

/-- Scanner for `re.findall` with the pattern of one `{`, one or more
non-brace characters, and one `}`: leftmost non-overlapping matches; a
failed match attempt resumes one character further, a successful one
resumes after its closing brace.  Fuelled like `pyReplaceGo`. -/
def findTokensGo : Nat → List Char → List (List Char)
  | 0, _ => []
  | _ + 1, [] => []
  | fuel + 1, c :: rest =>
    if c = '{' then
      if ((rest.dropWhile (fun d => d != '{' && d != '}')).head? = some '}')
          ∧ (rest.takeWhile (fun d => d != '{' && d != '}')) ≠ [] then
        (rest.takeWhile (fun d => d != '{' && d != '}')) ::
          findTokensGo fuel (rest.dropWhile (fun d => d != '{' && d != '}')).tail
      else findTokensGo fuel rest
    else findTokensGo fuel rest

/-- The bracketed-token extraction of `process_rollup`. -/
def findTokens (l : List Char) : List (List Char) := findTokensGo l.length l

/-- Embeds `" ".join(formulas)`. -/
def joinSpace : List String → List Char
  | [] => []
  | [s] => s.data
  | s :: rest => s.data ++ ' ' :: joinSpace rest

/-- A cross-sheet reference, with the exact fields the code reads/sets. -/
structure XRef where
  name : String
  source_sheet_id : Int
  start_row_id : Int
  end_row_id : Int
  start_column_id : Int
  end_column_id : Int
  deriving DecidableEq, Repr

/-- A cell of the rollup sheet (only its formula matters to the code). -/
structure RCell where
  formula : Option String
  deriving DecidableEq, Repr

/-- A row of the rollup sheet. -/
structure RRow where
  id : Int
  cells : List RCell
  deriving DecidableEq, Repr

/-- Python exceptions that escape the embedded functions. -/
inductive PyErr
  | typeError (msg : String)
  | apiError (msg : String)
  | fileNotFound (path : String)
  | valueError (msg : String)
  deriving DecidableEq, Repr

/-- Remote calls issued by `process_rollup`, in issue order. -/
inductive RCall
  | listRefs
  | getSheet
  | createRef (req : XRef)
  | updateRows (count : Nat)
  deriving DecidableEq, Repr

/-- The printed outcome of a `process_rollup` run. -/
inductive RollupReport
  | nothingToUpdate
  | wouldUpdate (rows : Nat)
  | updated (rows : Nat)
  deriving DecidableEq, Repr

/-- Remote-store behaviour visible to one `process_rollup` run. -/
structure RollupEnv where
  refsResult : Except String (List XRef)
  sheetRowsResult : Except String (List RRow)
  mapping : PyMapping
  createResult : XRef → Except String XRef
  updateResult : List RRow → Except String Unit

/-- The error raised by `process_rollup`'s creation phase. -/
def intSubscriptTypeError : PyErr :=
  PyErr.typeError ("int object is not subscriptable")

/-- Embeds the Python expression `dup[-4:]` of `process_rollup`.  `dup`
comes from `mapping.get(str(src_id), [])[1:]` and `mapping.json` stores the
instance ids as JSON numbers (discovery appends `int(s.id)`), so `dup` is an
`int` and subscripting it raises `TypeError`. -/
def pySliceLast4 (dup : Int) : Except PyErr String :=
  .error intSubscriptTypeError

/-- The replacement map `repl_map`: old reference name to new names. -/
abbrev ReplMap : Type := List (String × List String)

/-- All formulas of the fetched rollup rows, in scan order. -/
def formulasOf (rows : List RRow) : List String :=
  rows.flatMap (fun r => r.cells.filterMap RCell.formula)

/-- Builds `src_to_refs`: references whose name occurs among the active
tokens, grouped by source sheet id in first-seen order. -/
def srcToRefsOf (refs : List XRef) (active : List (List Char)) :
    List (Int × List XRef) :=
  refs.foldl
    (fun acc r =>
      if r.name.data ∈ active then dictAppend acc r.source_sheet_id r else acc)
    []

/-- Inner creation loop (`for ref in ref_list`) for one duplicate:
compute the new reference's name (which raises, see `pySliceLast4`),
issue the create call, and record old-name to new-name. -/
def cloneInner (env : RollupEnv) (dup : Int) :
    List XRef → ReplMap → List RCall →
      Except (PyErr × List RCall) (ReplMap × List RCall)
  | [], rm, calls => .ok (rm, calls)
  | ref :: rest, rm, calls =>
    match pySliceLast4 dup with
    | .error e => .error (e, calls)
    | .ok suffix4 =>
      let req : XRef :=
        { name := ref.name ++ "-dup-" ++ suffix4
          source_sheet_id := dup
          start_row_id := ref.start_row_id
          end_row_id := ref.end_row_id
          start_column_id := ref.start_column_id
          end_column_id := ref.end_column_id }
      match env.createResult req with
      | .error e => .error (.apiError e, calls ++ [RCall.createRef req])
      | .ok newRef =>
        cloneInner env dup rest (dictAppend rm ref.name newRef.name)
          (calls ++ [RCall.createRef req])

/-- Middle creation loop (`for dup in dup_ids`): a duplicate whose id
already occurs among ALL existing references' source ids is skipped. -/
def cloneDups (env : RollupEnv) (allRefs : List XRef) (refList : List XRef) :
    List Int → ReplMap → List RCall →
      Except (PyErr × List RCall) (ReplMap × List RCall)
  | [], rm, calls => .ok (rm, calls)
  | dup :: rest, rm, calls =>
    if dup ∈ allRefs.map XRef.source_sheet_id then
      cloneDups env allRefs refList rest rm calls
    else
      match cloneInner env dup refList rm calls with
      | .error e => .error e
      | .ok (rm', calls') => cloneDups env allRefs refList rest rm' calls'

/-- Outer creation loop (`for src_id, ref_list in src_to_refs.items()`),
with `dup_ids = mapping.get(str(src_id), [])[1:]`. -/
def cloneOuter (env : RollupEnv) (allRefs : List XRef) :
    List (Int × List XRef) → ReplMap → List RCall →
      Except (PyErr × List RCall) (ReplMap × List RCall)
  | [], rm, calls => .ok (rm, calls)
  | (src_id, refList) :: rest, rm, calls =>
    match cloneDups env allRefs refList
        (((dictGet env.mapping (toString src_id)).getD []).drop 1) rm calls with
    | .error e => .error e
    | .ok (rm', calls') => cloneOuter env allRefs rest rm' calls'

/-- The bracketed token of a reference name. -/
def tokOf (name : String) : List Char :=
  '{' :: (name.data ++ ['}'])

/-- One inner step of `patched`: skip when `{new}` is already present,
otherwise replace every `{old}` by `{old}, {new}`. -/
def patchStep (out : List Char) (old new : String) : List Char :=
  if pyContains out (tokOf new) then out
  else pyReplace out (tokOf old) (tokOf old ++ (", ").data ++ tokOf new)

/-- Embeds `patched(text)` of `process_rollup`: fold `patchStep` over every
`old -> new` pair of the replacement map in insertion order. -/
def patched (repl_map : ReplMap) (text : String) : String :=
  String.mk
    (repl_map.foldl
      (fun out e => e.2.foldl (fun o n => patchStep o e.1 n) out)
      text.data)

/-- Patch one cell; the flag records whether the formula changed. -/
def patchCell (repl_map : ReplMap) (c : RCell) : RCell × Bool :=
  match c.formula with
  | some f =>
    let newf := patched repl_map f
    if newf ≠ f then ({ formula := some newf }, true) else (c, false)
  | none => (c, false)

/-- Patch one row; the flag records whether any cell changed. -/
def patchRow (repl_map : ReplMap) (r : RRow) : RRow × Bool :=
  let pcs := r.cells.map (patchCell repl_map)
  ({ id := r.id, cells := pcs.map Prod.fst }, pcs.any Prod.snd)

/-- The rows queued for write-back: exactly those some formula of which
changed under `patched`. -/
def collectUpdates (repl_map : ReplMap) (rows : List RRow) : List RRow :=
  rows.filterMap (fun r =>
    let pr := patchRow repl_map r
    if pr.2 then some pr.1 else none)

/-- Fuelled chunking (`chunked`): split into pieces of `n` rows. -/
def chunkedGo (n : Nat) : Nat → List RRow → List (List RRow)
  | 0, _ => []
  | _ + 1, [] => []
  | fuel + 1, l => l.take n :: chunkedGo n fuel (l.drop n)

/-- Embeds `chunked(it, n)` of updater.py. -/
def chunked (l : List RRow) (n : Nat) : List (List RRow) :=
  chunkedGo n l.length l

/-- The write loop (`for chunk in chunked(updates)`): one `update_rows`
call per chunk; a failure propagates, aborting the remaining chunks. -/
def writeChunksGo (env : RollupEnv) (total : Nat) :
    List (List RRow) → List RCall → Except PyErr RollupReport × List RCall
  | [], calls => (.ok (.updated total), calls)
  | c :: cs, calls =>
    match env.updateResult c with
    | .error e => (.error (.apiError e), calls ++ [RCall.updateRows c.length])
    | .ok _ => writeChunksGo env total cs (calls ++ [RCall.updateRows c.length])

/-- Embeds `process_rollup(rollup_id, mapping, dry)`: list references,
fetch formulas, compute active tokens, clone missing references, bail out
when nothing was cloned, patch formulas in memory, then either report the
dry-run count or write the changed rows in 490-row chunks.  Returns the
outcome together with the trace of remote calls issued. -/
def process_rollup (env : RollupEnv) (dry : Bool) :
    Except PyErr RollupReport × List RCall :=
  match env.refsResult with
  | .error e => (.error (.apiError e), [RCall.listRefs])
  | .ok refs =>
    match env.sheetRowsResult with
    | .error e => (.error (.apiError e), [RCall.listRefs, RCall.getSheet])
    | .ok rows =>
      let active := findTokens (joinSpace (formulasOf rows))
      match cloneOuter env refs (srcToRefsOf refs active) [] [] with
      | .error (e, calls) => (.error e, [RCall.listRefs, RCall.getSheet] ++ calls)
      | .ok (repl_map, calls) =>
        let base := [RCall.listRefs, RCall.getSheet] ++ calls
        if repl_map.isEmpty then (.ok .nothingToUpdate, base)
        else
          let updates := collectUpdates repl_map rows
          if dry then (.ok (.wouldUpdate updates.length), base)
          else writeChunksGo env updates.length (chunked updates 490) base

/-- Command-line arguments of updater.py's `main`. -/
structure UpdaterArgs where
  rollups : Option String
  dry_run : Bool

/-- On-disk inputs of updater.py's `main`: the parsed mapping file (`none`
when the file is absent), the parsed `auto_rollup_config.json` id list
(`none` when that file is absent), and the contents of `@`-files. -/
structure UpdaterFS where
  mappingFile : Option PyMapping
  autoRollupConfig : Option (List Int)
  listFiles : List (String × List Int)

/-- How a run of updater.py's `main` ends before any remote call: a clean
early exit with one of its three diagnostics, or entry into
`process_rollup` processing (the only place remote calls are issued). -/
inductive MainOutcome
  | exitNoRollupsSpecified
  | exitNoAutoConfig
  | exitNoRollupSheets
  | run (rollups : List Int) (mapping : PyMapping) (dry : Bool)
  deriving DecidableEq, Repr

/-- Embeds `[int(x) for x in s.split(",")]` (a parse failure raises). -/
def parseCommaInts (s : String) : Option (List Int) :=
  (s.splitOn (",")).foldr
    (fun p acc =>
      match pyInt p, acc with
      | some n, some l => some (n :: l)
      | _, _ => none)
    (some [])

/-- Embeds `main()` of updater.py up to the point where remote work starts:
`json.load(open(args.mapping))` raises `FileNotFoundError` when the mapping
file is absent (uncaught); an unset/empty `--rollups` exits cleanly;
`auto` without `auto_rollup_config.json` exits cleanly with a diagnostic
(the only `FileNotFoundError` the code catches); `@file` reads the file
(uncaught when absent); otherwise the comma list is parsed. -/
def updater_main (args : UpdaterArgs) (fs : UpdaterFS) : Except PyErr MainOutcome :=
  match fs.mappingFile with
  | none => .error (.fileNotFound ("mapping.json"))
  | some mapping =>
    match args.rollups with
    | none => .ok .exitNoRollupsSpecified
    | some rstr =>
      if rstr = "" then .ok .exitNoRollupsSpecified
      else if rstr = "auto" then
        match fs.autoRollupConfig with
        | none => .ok .exitNoAutoConfig
        | some ids =>
          if ids.isEmpty then .ok .exitNoRollupSheets
          else .ok (.run ids mapping args.dry_run)
      else if rstr.data.head? = some '@' then
        match dictGet fs.listFiles (String.mk rstr.data.tail) with
        | none => .error (.fileNotFound (String.mk rstr.data.tail))
        | some ids =>
          if ids.isEmpty then .ok .exitNoRollupSheets
          else .ok (.run ids mapping args.dry_run)
      else
        match parseCommaInts rstr with
        | none => .error (.valueError rstr)
        | some ids =>
          if ids.isEmpty then .ok .exitNoRollupSheets
          else .ok (.run ids mapping args.dry_run)

/-- Embeds `main()` of monitor_and_duplicate.py up to the point where
remote work starts: `json.load(open("mapping.json"))` raises an uncaught
`FileNotFoundError` when the file is absent; otherwise the groups are
handed to `monitor_group`. -/
def monitor_main (mappingFile : Option PyMapping) : Except PyErr PyMapping :=
  match mappingFile with
  | none => .error (.fileNotFound ("mapping.json"))
  | some m => .ok m

theorem cloneInner_result (env : RollupEnv) (dup : Int) (refList : List XRef)
    (rm : ReplMap) (calls : List RCall) :
    cloneInner env dup refList rm calls = .ok (rm, calls) ∨
      cloneInner env dup refList rm calls = .error (intSubscriptTypeError, calls) := by
  cases refList with
  | nil => exact Or.inl rfl
  | cons ref rest => exact Or.inr rfl

theorem cloneDups_result (env : RollupEnv) (allRefs : List XRef)
    (refList : List XRef) (dups : List Int) :
    ∀ (rm : ReplMap) (calls : List RCall),
      (∃ rm', cloneDups env allRefs refList dups rm calls = .ok (rm', calls)) ∨
        cloneDups env allRefs refList dups rm calls =
          .error (intSubscriptTypeError, calls) := by
  induction dups with
  | nil => intro rm calls; exact Or.inl ⟨rm, rfl⟩
  | cons dup rest ih =>
    intro rm calls
    by_cases h : dup ∈ allRefs.map XRef.source_sheet_id
    · have he : cloneDups env allRefs refList (dup :: rest) rm calls =
          cloneDups env allRefs refList rest rm calls := by
        simp [cloneDups, h]
      rw [he]
      exact ih rm calls
    · rcases cloneInner_result env dup refList rm calls with hok | herr
      · have he : cloneDups env allRefs refList (dup :: rest) rm calls =
            cloneDups env allRefs refList rest rm calls := by
          simp [cloneDups, h, hok]
        rw [he]
        exact ih rm calls
      · have he : cloneDups env allRefs refList (dup :: rest) rm calls =
            .error (intSubscriptTypeError, calls) := by
          simp [cloneDups, h, herr]
        exact Or.inr he

theorem cloneOuter_result (env : RollupEnv) (allRefs : List XRef)
    (src : List (Int × List XRef)) :
    ∀ (rm : ReplMap) (calls : List RCall),
      (∃ rm', cloneOuter env allRefs src rm calls = .ok (rm', calls)) ∨
        cloneOuter env allRefs src rm calls =
          .error (intSubscriptTypeError, calls) := by
  induction src with
  | nil => intro rm calls; exact Or.inl ⟨rm, rfl⟩
  | cons e rest ih =>
    obtain ⟨src_id, refList⟩ := e
    intro rm calls
    rcases cloneDups_result env allRefs refList
        (((dictGet env.mapping (toString src_id)).getD []).drop 1) rm calls with
      ⟨rm', hok⟩ | herr
    · have he : cloneOuter env allRefs ((src_id, refList) :: rest) rm calls =
          cloneOuter env allRefs rest rm' calls := by
        simp only [cloneOuter]
        rw [hok]
      rw [he]
      exact ih rm' calls
    · have he : cloneOuter env allRefs ((src_id, refList) :: rest) rm calls =
          .error (intSubscriptTypeError, calls) := by
        simp only [cloneOuter]
        rw [herr]
      exact Or.inr he

/-- Rollup scenario of the spec's end-to-end test: group
`1001 -> [1001, 1002]`, one reference `BudgetRef` at source 1001, one
formula using it, nothing referencing 1002 yet. -/
def refBudget : XRef := ⟨"BudgetRef", 1001, 11, 12, 21, 22⟩

/-- Environment realising the C3 scenario. -/
def envC3 : RollupEnv :=
  { refsResult := .ok [refBudget]
    sheetRowsResult := .ok [⟨501, [⟨some ("=SUM({BudgetRef})")⟩]⟩]
    mapping := [("1001", [1001, 1002])]
    createResult := fun req => .ok req
    updateResult := fun _ => .ok () }

/-- C3: on the spec's end-to-end scenario the code does NOT create
`BudgetRef-dup-1002` and does not rewrite the formula: building the new
reference's name evaluates `dup[-4:]` on the integer id `1002`, raising
`TypeError` before any create call is issued — the run aborts with only the
two read calls in its trace. -/
theorem process_rollup_c3_scenario_raises :
    process_rollup envC3 false =
      (.error intSubscriptTypeError, [RCall.listRefs, RCall.getSheet]) := by
  rfl

/-- Single-source rollup environment used for the C4 counterexample. -/
def envC4 : RollupEnv :=
  { refsResult := .ok [⟨"CostRef", 2001, 11, 12, 21, 22⟩]
    sheetRowsResult := .ok [⟨502, [⟨some ("=SUM({CostRef})")⟩]⟩]
    mapping := [("2001", [2001, 2002])]
    createResult := fun req => .ok req
    updateResult := fun _ => .ok () }

/-- C4 counterexample: with the dry-run flag set and one reference missing,
the run does not merely read and report the count of rows that would
change — the creation phase (which the dry-run flag does not gate) runs
first and aborts the call with a `TypeError`, so no count is ever
reported. -/
theorem process_rollup_dry_run_crashes_instead_of_reporting :
    process_rollup envC4 true =
      (.error intSubscriptTypeError, [RCall.listRefs, RCall.getSheet]) := by
  rfl

/-- C4 amended: with the dry-run flag set, `process_rollup` never issues a
row-update write call, whatever the environment (the write loop is only
entered when `dry` is false). -/
theorem process_rollup_dry_never_writes (env : RollupEnv) (n : Nat) :
    RCall.updateRows n ∉ (process_rollup env true).2 := by
  unfold process_rollup
  rcases hr : env.refsResult with e | refs
  · simp
  · rcases hs : env.sheetRowsResult with e | rows
    · simp
    · rcases cloneOuter_result env refs
          (srcToRefsOf refs (findTokens (joinSpace (formulasOf rows)))) [] [] with
        ⟨rm', hok⟩ | herr
      · simp only [hok]
        by_cases hrm : rm'.isEmpty <;> simp [hrm]
      · simp only [herr]
        simp

/-- Environment for the `process_rollup_dry_never_writes` witness. -/
def envC4w : RollupEnv :=
  { refsResult := .ok [⟨"DeltaRef", 5001, 11, 12, 21, 22⟩]
    sheetRowsResult := .ok [⟨801, [⟨some ("=SUM({DeltaRef})")⟩]⟩]
    mapping := [("5001", [5001, 5002])]
    createResult := fun req => .ok req
    updateResult := fun _ => .ok () }

/-- Witness for `process_rollup_dry_never_writes` at a concrete
environment. -/
theorem process_rollup_dry_never_writes_witness :
    RCall.updateRows 0 ∉ (process_rollup envC4w true).2 :=
  process_rollup_dry_never_writes envC4w 0

/-- Two-source rollup environment: both sources have an uncovered
duplicate, so a continuing implementation would have to process both. -/
def envC5 : RollupEnv :=
  { refsResult := .ok [⟨"AlphaRef", 3001, 11, 12, 21, 22⟩, ⟨"BetaRef", 3002, 13, 14, 23, 24⟩]
    sheetRowsResult := .ok [⟨601, [⟨some ("=SUM({AlphaRef}) + SUM({BetaRef})")⟩]⟩]
    mapping := [("3001", [3001, 3003]), ("3002", [3002, 3004])]
    createResult := fun req => .ok req
    updateResult := fun _ => .ok () }

/-- C5 counterexample: the creation step for the first source's duplicate
fails (the name computation raises), and instead of collecting the failure
and continuing with the remaining duplicates and sources, the whole rollup
run aborts with the propagated error: no reference is created for EITHER
source (no create call in the trace) and the write phase is never
reached. -/
theorem process_rollup_create_failure_not_collected :
    process_rollup envC5 false =
      (.error intSubscriptTypeError, [RCall.listRefs, RCall.getSheet]) := by
  rfl

/-- C5 amended: a failure inside the reference-creation phase propagates
and aborts the entire rollup run — `process_rollup` returns that error with
no further calls beyond those the creation phase had already issued (in
particular the write phase is never reached) — and a row enters the
write-phase queue only if patching actually changed one of its
formulas. -/
theorem process_rollup_create_failure_aborts :
    (∀ (env : RollupEnv) (dry : Bool) (refs : List XRef) (rows : List RRow)
        (e : PyErr) (calls : List RCall),
      env.refsResult = .ok refs →
      env.sheetRowsResult = .ok rows →
      cloneOuter env refs
          (srcToRefsOf refs (findTokens (joinSpace (formulasOf rows)))) [] [] =
        .error (e, calls) →
      process_rollup env dry =
        (.error e, [RCall.listRefs, RCall.getSheet] ++ calls)) ∧
    (∀ (rm : ReplMap) (rows : List RRow) (r : RRow),
      r ∈ collectUpdates rm rows → ∃ r₀ ∈ rows, patchRow rm r₀ = (r, true)) := by
  constructor
  · intro env dry refs rows e calls h1 h2 h3
    unfold process_rollup
    rw [h1, h2]
    simp only [h3]
  · intro rm rows r hr
    unfold collectUpdates at hr
    rcases List.mem_filterMap.mp hr with ⟨r₀, hr₀, hf⟩
    refine ⟨r₀, hr₀, ?_⟩
    by_cases hch : (patchRow rm r₀).2
    · simp only [hch, if_pos] at hf
      obtain hr1 : (patchRow rm r₀).1 = r := Option.some.inj hf
      calc patchRow rm r₀ = ((patchRow rm r₀).1, (patchRow rm r₀).2) := rfl
        _ = (r, true) := by rw [hr1, hch]
    · simp only [hch] at hf
      simp at hf

/-- Environment for the `process_rollup_create_failure_aborts` witness. -/
def envC5w : RollupEnv :=
  { refsResult := .ok [⟨"GammaRef", 4001, 11, 12, 21, 22⟩]
    sheetRowsResult := .ok [⟨701, [⟨some ("=SUM({GammaRef})")⟩]⟩]
    mapping := [("4001", [4001, 4002])]
    createResult := fun req => .ok req
    updateResult := fun _ => .ok () }

/-- Witness for `process_rollup_create_failure_aborts`: a concrete failing
creation phase aborts the run with exactly the two read calls issued. -/
theorem process_rollup_create_failure_aborts_witness :
    process_rollup envC5w false =
      (.error intSubscriptTypeError, [RCall.listRefs, RCall.getSheet] ++ []) :=
  (process_rollup_create_failure_aborts).1 envC5w false
    [⟨"GammaRef", 4001, 11, 12, 21, 22⟩]
    [⟨701, [⟨some ("=SUM({GammaRef})")⟩]⟩]
    intSubscriptTypeError [] rfl rfl (by rfl)

/-- C6 counterexample: a missing mapping file does NOT cause a clean early
exit with a diagnostic — both run modes raise an uncaught
`FileNotFoundError` (the `json.load(open(...))` calls are not wrapped), so
the claim fails for the mapping file. -/
theorem main_missing_mapping_crashes :
    updater_main ⟨some ("auto"), false⟩
        ⟨none, some [1], []⟩ = .error (.fileNotFound ("mapping.json")) ∧
      monitor_main none = .error (.fileNotFound ("mapping.json")) :=
  ⟨rfl, rfl⟩

/-- C6 amended: requesting `auto` rollups with no auto-detected config file
does exit cleanly with a diagnostic before any remote call (the outcome is
an early exit, not a `run`), while a missing mapping file raises an
uncaught `FileNotFoundError` in both run modes. -/
theorem updater_main_missing_inputs
    (args : UpdaterArgs) (fs : UpdaterFS) (m : PyMapping) :
    (fs.mappingFile = some m → args.rollups = some ("auto") →
      fs.autoRollupConfig = none →
      updater_main args fs = .ok MainOutcome.exitNoAutoConfig) ∧
    (fs.mappingFile = none →
      updater_main args fs = .error (.fileNotFound ("mapping.json"))) ∧
    (∀ mf : Option PyMapping, mf = none →
      monitor_main mf = .error (.fileNotFound ("mapping.json"))) := by
  refine ⟨?_, ?_, ?_⟩
  · intro h1 h2 h3
    unfold updater_main
    rw [h1, h2, h3]
    rfl
  · intro h1
    unfold updater_main
    rw [h1]
  · intro mf h
    rw [h]
    rfl

/-- Witness for `updater_main_missing_inputs`: `auto` with no config file
is a clean diagnostic exit. -/
theorem updater_main_missing_inputs_witness :
    updater_main ⟨some ("auto"), true⟩ ⟨some [("g", [1])], none, []⟩ =
      .ok MainOutcome.exitNoAutoConfig :=
  (updater_main_missing_inputs ⟨some ("auto"), true⟩
      ⟨some [("g", [1])], none, []⟩ [("g", [1])]).1 rfl rfl rfl

/-- Replacement map in which the second entry's new name equals the first
entry's old name. -/
def rmC8 : ReplMap := [("A", ["X"]), ("B", ["A"])]

/-- C8 counterexample: applying the whole patch function twice does not
equal applying it once.  On `rmC8` and the formula containing only the
token B, the first application appends the token A after B; the second
application then also appends the token X after A, producing a third,
different formula. -/
theorem patched_double_application_differs :
    patched rmC8 (patched rmC8 ("{B}")) ≠ patched rmC8 ("{B}") := by
  decide

/-- C8 amended: the per-entry guard holds — for every formula text and
replacement entry, a formula already containing the bracketed new token is
left unchanged for that entry (in particular a single-entry replacement map
leaves such a formula entirely unchanged) — but double application of the
whole patch function need not equal single application when one entry's new
name is another entry's old name. -/
theorem patched_entry_guard :
    (∀ (text : List Char) (old new : String),
        pyContains text (tokOf new) = true → patchStep text old new = text) ∧
    (∀ (old new : String) (text : String),
        pyContains text.data (tokOf new) = true →
        patched [(old, [new])] text = text) := by
  constructor
  · intro text old new h
    unfold patchStep
    simp [h]
  · intro old new text h
    unfold patched
    simp only [List.foldl_cons, List.foldl_nil]
    have hs : patchStep text.data old new = text.data := by
      unfold patchStep
      simp [h]
    rw [hs]

/-- Witness for `patched_entry_guard`: a formula already containing the new
token is unchanged. -/
theorem patched_entry_guard_witness :
    patched [(("M"), [("N")])] ("=SUM({N})") = ("=SUM({N})") :=
  (patched_entry_guard).2 ("M") ("N") ("=SUM({N})") (by decide)

end SmartsheetBot
